import Mathlib

set_option maxRecDepth 100000

/-!
Verification development for the investment-advisor notebook
(`agent-investment_advisor.ipynb`).

The notebook drives a remote agent service: it posts a user message
to a thread, starts a run, polls the run status on a fixed delay and
dispatches by status ("completed", "failed", "requires_action", other),
executing locally registered functions when the run requires tool
outputs.  The definitions below are a shallow embedding of that code:

* `fetch_stock_price` embeds the price-lookup adapter (cell defining
  `fetch_stock_price`); the external `yfinance` provider is modelled by
  `ProviderResult` (either the "Close" column of the one-day history —
  possibly empty — or a raised exception with its type name and message).
* `handleToolCallsLoop` / `handleToolCallsManual` embed the two
  `requires_action` tool-call loops (the `process_message` loop and the
  earlier manual cell, which differ in how they treat calls that are not
  of type "function").
* `loopStep` / `runLoop` / `process_message` embed the polling loop;
  remote calls appear as entries of an `Effect` trace and the remote
  service is an oracle `Env` (run status per poll, message list per
  thread id, the ambient `available_functions` registry, and whether
  `create_message` / `create_run` raise).
-/

/-- One content part of a message: the dispatcher in `process_message`
tests `hasattr(part, "text")` (with a `value`), then
`hasattr(part, "image_file")`, and otherwise falls back to `str(part)`;
the three constructors embed those three shapes. -/
inductive ContentPart where
  | text (value : String)
  | imageFile (fileId : String)
  | other (str : String)
deriving DecidableEq

/-- A thread message: a role and an ordered list of content parts. -/
structure Message where
  role : String
  content : List ContentPart
deriving DecidableEq

/-- The `function` field of a tool call: requested name and the raw
JSON-encoded argument payload. -/
structure FunctionCall where
  name : String
  arguments : String
deriving DecidableEq

/-- A pending tool call of a `requires_action` run. -/
structure ToolCall where
  id : String
  type : String
  function : FunctionCall
deriving DecidableEq

/-- One element of the `tool_responses` list built by both handlers:
`{"tool_call_id": call.id, "output": tool_response}`. -/
structure ToolOutput where
  tool_call_id : String
  output : String
deriving DecidableEq

/-- Result of one `stock.history(period="1d")` interaction with the
external provider, as seen by `fetch_stock_price`: either the "Close"
column values of the returned frame (empty list = empty dataset), or an
exception carrying its type name (`type(e).__name__`) and message
(`str(e)`). -/
inductive ProviderResult where
  | history (closes : List ℚ)
  | raises (exType : String) (exMsg : String)
deriving DecidableEq

/-- Python's built-in `round` to an integer: round half to even. -/
def pyRound (q : ℚ) : ℤ :=
  let f : ℤ := ⌊q⌋
  let r : ℚ := q - (f : ℚ)
  if r < 1 / 2 then f
  else if 1 / 2 < r then f + 1
  else if 2 ∣ f then f else f + 1

/-- `round(x, 3)` from the source: round to 3 decimal places. -/
def round3 (q : ℚ) : ℚ := (pyRound (q * 1000) : ℚ) / 1000

/-- Models Python's `str(...)` applied to the rounded closing price.
The exact decimal digit string of a float is not modelled; only that
the string is determined by the rounded numeric value. -/
def float_str (q : ℚ) : String := toString q

/-- Embedding of the notebook's `fetch_stock_price`: on data it returns
`str(round(stock_data["Close"].iloc[-1], 3))`; on an empty frame the
"No data found" string; a `KeyError` gets its own message (which does
not mention the type name), and any other exception is reported as
`"Error: Unexpected issue occurred - {type name}: {message}"`. -/
def fetch_stock_price (ticker_symbol : String) (r : ProviderResult) : String :=
  match r with
  | .history closes =>
      if closes.isEmpty then
        "Error: No data found for ticker symbol: " ++ ticker_symbol
      else
        float_str (round3 closes.getLast!)
  | .raises exType exMsg =>
      if exType == "KeyError" then
        "Error: Data missing for key: " ++ exMsg ++ ". Verify the ticker symbol."
      else
        "Error: Unexpected issue occurred - " ++ exType ++ ": " ++ exMsg

/-- The function registry `available_functions`: a name-to-callable
mapping; each callable takes the raw argument payload of the call (the
source parses it with `json.loads` and splats it as keyword arguments)
and returns the textual tool output. -/
def Registry : Type := List (String × (String → String))

/-- Embedding of the tool-call loop inside `process_message`: for each
call, `if call.type == "function" and call.function.name in
available_functions` the callable is applied and
`(call.id, output)` is appended; otherwise
`ValueError(f"Requested function '{name}' is not available.")` is
raised, which aborts the whole batch (no subsequent call is processed,
nothing is submitted). -/
def handleToolCallsLoop (avail : Registry) :
    List ToolCall → Except String (List ToolOutput)
  | [] => .ok []
  | c :: rest =>
      if c.type == "function" then
        match List.lookup c.function.name avail with
        | some f =>
            match handleToolCallsLoop avail rest with
            | .ok outs => .ok ({ tool_call_id := c.id, output := f c.function.arguments } :: outs)
            | .error e => .error e
        | none => .error ("Requested function '" ++ c.function.name ++ "' is not available.")
      else
        .error ("Requested function '" ++ c.function.name ++ "' is not available.")

/-- Embedding of the tool-call loop of the manual `requires_action`
cell: calls whose type is not "function" are silently skipped; a call of
type "function" whose name is not registered raises
`Exception("Function requested by the model does not exist")`, aborting
the batch. -/
def handleToolCallsManual (avail : Registry) :
    List ToolCall → Except String (List ToolOutput)
  | [] => .ok []
  | c :: rest =>
      if c.type == "function" then
        match List.lookup c.function.name avail with
        | some f =>
            match handleToolCallsManual avail rest with
            | .ok outs => .ok ({ tool_call_id := c.id, output := f c.function.arguments } :: outs)
            | .error e => .error e
        | none => .error "Function requested by the model does not exist"
      else
        handleToolCallsManual avail rest

/-- Outcome of one `requires_action` handling: either the collected
outputs were submitted in one `submit_tool_outputs_to_run` call, or an
exception aborted the batch before any submission. -/
inductive BatchResult where
  | submitted (outputs : List ToolOutput)
  | errored (e : String)
deriving DecidableEq

/-- The run state observed by one `get_run` poll: the status string,
`required_action.type`, and the pending tool calls (the source also
checks `tool_calls is not None`; the present list models the non-`None`
case, which is the only one in which a batch exists). -/
structure RunState where
  status : String
  requiredActionType : String
  toolCalls : List ToolCall
deriving DecidableEq

/-- Embedding of the whole manual `requires_action` cell: when the
required action is "submit_tool_outputs" the calls are handled and, if
no exception was raised, the collected responses are submitted;
otherwise `tool_responses` stays `[]` and is still submitted (the
submit call sits outside the inner `if` in that cell). -/
def submitBatchManual (avail : Registry) (r : RunState) : BatchResult :=
  if r.requiredActionType == "submit_tool_outputs" then
    match handleToolCallsManual avail r.toolCalls with
    | .ok outs => .submitted outs
    | .error e => .errored e
  else
    .submitted []

/-- Remote calls and delays performed by `process_message`, in order.
`createMessage`/`createRun`/`getRun`/`listMessages`/`submitToolOutputs`
are the agent-service calls; `getFileContent` plus `saveAndShowImage`
stand for the image-file block of the dispatcher (download, local save
overwriting `./data/sample_chart.png`, render); `sleep` is
`time.sleep(5)`. -/
inductive Effect where
  | sleep
  | getRun
  | listMessages (threadId : String)
  | submitToolOutputs (outputs : List ToolOutput)
  | createMessage (threadId : String)
  | createRun (threadId : String)
  | getFileContent (fileId : String)
  | saveAndShowImage
deriving DecidableEq

/-- Terminal outcome of the polling loop: the "completed" branch (with
the ascending message list it fetched and the lines it printed), the
"failed" branch (with the text of the reported diagnostic message), or
an uncaught exception propagating out of `process_message`. -/
inductive Outcome where
  | completed (msgs : List Message) (printed : List String)
  | failed (answer : String)
  | raised (e : String)
deriving DecidableEq

/-- What one iteration of the `while True` loop decides: `brk` is the
`break` statement carrying the terminal outcome, `cont` continues
polling, `raised` is an uncaught exception. -/
inductive LoopControl where
  | brk (o : Outcome)
  | cont
  | raised (e : String)
deriving DecidableEq

/-- The remote service and ambient notebook state seen by
`process_message`: the run state returned by the k-th `get_run` poll,
the per-thread message list in ascending creation order, the module
global `available_functions`, and whether `create_message` /
`create_run` raise (the upstream rejection message). -/
structure Env where
  runStates : Nat → RunState
  listMessagesAsc : String → List Message
  available_functions : Registry
  createMessageError : Option String
  createRunError : Option String

/-- Messages of a thread in the service's default (descending) order,
as returned by `list_messages` without an `order` argument: index 0 is
the most recent message. -/
def listMessagesDesc (env : Env) (threadId : String) : List Message :=
  (env.listMessagesAsc threadId).reverse

/-- Python's `str.capitalize()`: first character upper-cased, the rest
lower-cased. -/
def capitalize (s : String) : String :=
  match s.data with
  | [] => ""
  | c :: cs => String.mk (c.toUpper :: cs.map Char.toLower)

/-- Python's f-string rendering of the `content` variable, which is
initialised to `None`: `str(None)` prints "None". -/
def pyNoneStr : Option String → String
  | some s => s
  | none => "None"

/-- One step of the content-part loop of the completed branch: a text
part overwrites `content` with its value, an image-file part leaves
`content` unchanged and performs the download/save/render effects, and
any other part overwrites `content` with its string representation. -/
def dispatchPartStep (acc : Option String × List Effect) (p : ContentPart) :
    Option String × List Effect :=
  match p with
  | .text v => (some v, acc.2)
  | .imageFile fid => (acc.1, acc.2 ++ [Effect.getFileContent fid, Effect.saveAndShowImage])
  | .other s => (some s, acc.2)

/-- Embedding of the per-message body of the completed branch: when the
content list is non-empty, the parts are scanned in order with
`dispatchPartStep` and a single line `f"{role.capitalize()}: {content}"`
is printed after the scan; an empty content list prints nothing. -/
def dispatchMessage (m : Message) : List String × List Effect :=
  if m.content.isEmpty then ([], [])
  else
    ([capitalize m.role ++ ": " ++ pyNoneStr (m.content.foldl dispatchPartStep (none, [])).1],
     (m.content.foldl dispatchPartStep (none, [])).2)

/-- The completed branch iterates `dispatchMessage` over the fetched
thread messages in order, concatenating printed lines and effects. -/
def dispatchMessages (msgs : List Message) : List String × List Effect :=
  msgs.foldl (fun acc m => (acc.1 ++ (dispatchMessage m).1, acc.2 ++ (dispatchMessage m).2))
    ([], [])

/-- The failed branch evaluates
`messages.data[0].content[0].text.value`: the first (most recent)
message's first content part must be a text part; otherwise the
expression raises (`IndexError` / `AttributeError`). -/
def failedAnswer : List Message → Option String
  | [] => none
  | m :: _ =>
      match m.content with
      | .text v :: _ => some v
      | _ => none

/-- One iteration of the `while True` body of `process_message` for the
run state `r` returned by this iteration's poll.  The iteration starts
with `time.sleep(5)` and `get_run`; then: "completed" fetches the
processed thread's messages ascending, dispatches them and breaks;
"failed" fetches the messages of the module-global thread `gtid` (the
source passes `thread.id`, not the `thread_id` parameter `tid`) and
breaks with the most recent message's text (or raises if that access
fails); "requires_action" with `required_action.type ==
"submit_tool_outputs"` runs the tool-call loop and either submits the
batch and continues, or raises; every other status sleeps again and
continues. -/
def loopStep (env : Env) (gtid tid : String) (r : RunState) : List Effect × LoopControl :=
  if r.status == "completed" then
    ([Effect.sleep, Effect.getRun, Effect.listMessages tid] ++
       (dispatchMessages (env.listMessagesAsc tid)).2,
     .brk (.completed (env.listMessagesAsc tid) (dispatchMessages (env.listMessagesAsc tid)).1))
  else if r.status == "failed" then
    match failedAnswer (listMessagesDesc env gtid) with
    | some a => ([Effect.sleep, Effect.getRun, Effect.listMessages gtid], .brk (.failed a))
    | none => ([Effect.sleep, Effect.getRun, Effect.listMessages gtid], .raised "AttributeError")
  else if r.status == "requires_action" && r.requiredActionType == "submit_tool_outputs" then
    match handleToolCallsLoop env.available_functions r.toolCalls with
    | .ok outs => ([Effect.sleep, Effect.getRun, Effect.submitToolOutputs outs], .cont)
    | .error e => ([Effect.sleep, Effect.getRun], .raised e)
  else
    ([Effect.sleep, Effect.getRun, Effect.sleep], .cont)

/-- The polling loop of `process_message`, fuel-indexed: `k` counts the
polls already made (`env.runStates k` is the next poll's answer) and
`fuel` bounds how many further iterations are unrolled.  `none` means
the loop was still running when the fuel ran out — the source loop has
no bound of its own. -/
def runLoop (env : Env) (gtid tid : String) : Nat → Nat → Option Outcome × List Effect
  | 0, _ => (none, [])
  | fuel + 1, k =>
      match loopStep env gtid tid (env.runStates k) with
      | (effs, .brk o) => (some o, effs)
      | (effs, .raised e) => (some (.raised e), effs)
      | (effs, .cont) =>
          ((runLoop env gtid tid fuel (k + 1)).1,
            effs ++ (runLoop env gtid tid fuel (k + 1)).2)

/-- Embedding of `process_message(thread_id=tid, ...)` with module
global thread `gtid`.  The try block attempts `create_message` then
`create_run`; if either raises, the except clause only prints
`"Error starting run:"` and control falls through into the polling
loop, whose first iteration sleeps and then evaluates `run.id` — but
the local variable `run` was never bound, so the iteration raises
`UnboundLocalError` before any `get_run` call is made.  When both
calls succeed the polling loop runs. -/
def process_message (env : Env) (gtid tid : String) (fuel : Nat) :
    Option Outcome × List Effect :=
  match env.createMessageError with
  | some _ =>
      (some (.raised "UnboundLocalError"), [Effect.createMessage tid, Effect.sleep])
  | none =>
      match env.createRunError with
      | some _ =>
          (some (.raised "UnboundLocalError"),
           [Effect.createMessage tid, Effect.createRun tid, Effect.sleep])
      | none =>
          ((runLoop env gtid tid fuel 0).1,
           [Effect.createMessage tid, Effect.createRun tid] ++ (runLoop env gtid tid fuel 0).2)

/-- Environment for the C5 evaluation: the module-global thread is "T1"
and `process_message` is invoked on a different thread "T2"; the two
threads' latest messages differ, and every poll reports "failed". -/
def envC5 : Env where
  runStates := fun _ => { status := "failed", requiredActionType := "", toolCalls := [] }
  listMessagesAsc := fun t =>
    if t == "T1" then [{ role := "assistant", content := [.text "global thread answer"] }]
    else [{ role := "assistant", content := [.text "processed thread answer"] }]
  available_functions := []
  createMessageError := none
  createRunError := none

/-- Environment for the C6 evaluation: `create_run` is rejected by the
remote service; the run states are irrelevant (no poll ever happens). -/
def envC6 : Env where
  runStates := fun _ => { status := "queued", requiredActionType := "", toolCalls := [] }
  listMessagesAsc := fun _ => []
  available_functions := []
  createMessageError := none
  createRunError := some "upstream rejection"

/-- Message used for the C7 counterexample: two text parts. -/
def msgC7 : Message :=
  { role := "user", content := [.text "first part value", .text "second part value"] }

/-- A registry with the single entry "fetch_stock_price", its callable
returning a fixed output; used by concrete witnesses. -/
def registryW : Registry := [("fetch_stock_price", fun _ => "425.5")]

/-- A tool call requesting a registered function; witness input. -/
def callKnown : ToolCall :=
  { id := "call_1", type := "function",
    function := { name := "fetch_stock_price", arguments := "\x7b\"ticker_symbol\": \"MSFT\"\x7d" } }

/-- A tool call requesting an unregistered function; witness input. -/
def callUnknown : ToolCall :=
  { id := "call_2", type := "function",
    function := { name := "fetch_bond_yield", arguments := "\x7b\x7d" } }

/-- Environment used by the C1 witness: one pending batch whose single
call requests the unregistered function of `callUnknown`. -/
def envC1 : Env where
  runStates := fun _ =>
    { status := "requires_action", requiredActionType := "submit_tool_outputs",
      toolCalls := [callUnknown] }
  listMessagesAsc := fun _ => []
  available_functions := registryW
  createMessageError := none
  createRunError := none

/-- Environment used by the C2 witness: one pending batch of two
registered function calls. -/
def envC2 : Env where
  runStates := fun _ =>
    { status := "requires_action", requiredActionType := "submit_tool_outputs",
      toolCalls := [callKnown, { callKnown with id := "call_3" }] }
  listMessagesAsc := fun _ => []
  available_functions := registryW
  createMessageError := none
  createRunError := none

/-- Environment used by the C4 witness: the run completes on the first
poll and the thread holds one assistant message. -/
def envC4 : Env where
  runStates := fun _ => { status := "completed", requiredActionType := "", toolCalls := [] }
  listMessagesAsc := fun _ =>
    [{ role := "user", content := [.text "What is today's date?"] },
     { role := "assistant", content := [.text "Today is 2026-10-11."] }]
  available_functions := []
  createMessageError := none
  createRunError := none

/-- Environment used by the C8 / C9 witnesses: the run status never
leaves "queued". -/
def envQueued : Env where
  runStates := fun _ => { status := "queued", requiredActionType := "", toolCalls := [] }
  listMessagesAsc := fun _ => []
  available_functions := []
  createMessageError := none
  createRunError := none

/-- Environment used by the C10 witness: global thread "T1" and
processed thread "T2" hold different messages; the run fails at once. -/
def envC10 : Env where
  runStates := fun _ => { status := "failed", requiredActionType := "", toolCalls := [] }
  listMessagesAsc := fun t =>
    if t == "T1" then
      [{ role := "assistant", content := [.text "old T1 note"] },
       { role := "assistant", content := [.text "latest T1 note"] }]
    else
      [{ role := "assistant", content := [.text "latest T2 note"] }]
  available_functions := []
  createMessageError := none
  createRunError := none

/-!  Theorems.  Helper lemmas come first, then one theorem per claim
(with its witness or counterexample where required). -/

/-- Helper: the character list of a string concatenation. -/
theorem strData_append (a b : String) : (a ++ b).data = a.data ++ b.data := rfl

/-- Helper: a string piece standing textually between two others is a
substring of the concatenation. -/
theorem substr_middle (pre mid post : String) :
    mid.data <:+: (pre ++ mid ++ post).data :=
  ⟨pre.data, post.data, by simp [strData_append]⟩

/-- Helper: the right piece of a concatenation is a substring of it. -/
theorem substr_tail (pre tail : String) : tail.data <:+: (pre ++ tail).data :=
  ⟨pre.data, [], by simp [strData_append]⟩

/-- Helper: a substring of the left piece is a substring of the
concatenation. -/
theorem substr_of_left (sub pre post : String) (h : sub.data <:+: pre.data) :
    sub.data <:+: (pre ++ post).data := by
  rcases h with ⟨s, t, hst⟩
  exact ⟨s, t ++ post.data, by rw [strData_append, ← hst]; simp⟩

/-- C3: as stated, the claim is false: the code special-cases `KeyError`
with a message that carries the key (the exception's message) but not
the exception's type name.  At the concrete exception
`KeyError("the Close column")` the returned string does not contain
"KeyError". -/
theorem C3_keyerror_counterexample :
    fetch_stock_price "AAPL" (.raises "KeyError" "the Close column") =
      "Error: Data missing for key: the Close column. Verify the ticker symbol." ∧
    ¬ ("KeyError".data <:+:
      (fetch_stock_price "AAPL" (.raises "KeyError" "the Close column")).data) := by
  constructor
  · decide
  · decide

/-- C3 (amended): `fetch_stock_price` is total (returns a string, never
raises past its boundary — it is a total Lean function); with data it
returns the latest close rounded to 3 decimal places as a numeric
string; on an empty dataset the result contains "No data found" and the
ticker; on a provider exception other than `KeyError` the result
contains the exception's type name and message; on a `KeyError` it
contains the message and the distinguishing text "Data missing for
key", but not necessarily the type name. -/
theorem C3_fetch_stock_price_amended (ticker : String) :
    (∀ closes : List ℚ, closes ≠ [] →
      fetch_stock_price ticker (.history closes) = float_str (round3 closes.getLast!)) ∧
    ("No data found".data <:+: (fetch_stock_price ticker (.history [])).data ∧
      ticker.data <:+: (fetch_stock_price ticker (.history [])).data) ∧
    (∀ exType exMsg : String, exType ≠ "KeyError" →
      exType.data <:+: (fetch_stock_price ticker (.raises exType exMsg)).data ∧
      exMsg.data <:+: (fetch_stock_price ticker (.raises exType exMsg)).data) ∧
    (∀ exMsg : String,
      "Data missing for key".data <:+:
        (fetch_stock_price ticker (.raises "KeyError" exMsg)).data ∧
      exMsg.data <:+: (fetch_stock_price ticker (.raises "KeyError" exMsg)).data) := by
  refine ⟨?_, ⟨?_, ?_⟩, ?_, ?_⟩
  · intro closes hne
    cases closes with
    | nil => exact absurd rfl hne
    | cons a as => rfl
  · show "No data found".data <:+:
      ("Error: No data found for ticker symbol: " ++ ticker).data
    exact substr_of_left _ _ _ (by decide)
  · show ticker.data <:+: ("Error: No data found for ticker symbol: " ++ ticker).data
    exact substr_tail _ _
  · intro exType exMsg hne
    have hbeq : (exType == "KeyError") = false := by
      simpa using hne
    constructor
    · show exType.data <:+: (fetch_stock_price ticker (.raises exType exMsg)).data
      simp only [fetch_stock_price, hbeq, Bool.false_eq_true, if_false]
      exact substr_of_left _ _ _ (substr_middle _ _ _)
    · simp only [fetch_stock_price, hbeq, Bool.false_eq_true, if_false]
      exact substr_tail _ _
  · intro exMsg
    constructor
    · show "Data missing for key".data <:+:
        ("Error: Data missing for key: " ++ exMsg ++ ". Verify the ticker symbol.").data
      exact substr_of_left _ _ _ (substr_of_left _ _ _ (by decide))
    · show exMsg.data <:+:
        ("Error: Data missing for key: " ++ exMsg ++ ". Verify the ticker symbol.").data
      exact substr_middle _ _ _

/-- C3 amended witness: the amended theorem applied at concrete inputs
discharging each hypothesis (a one-row history, and a `ValueError`). -/
theorem C3_fetch_stock_price_amended_witness :
    fetch_stock_price "AAPL" (.history [1489 / 10]) = float_str (round3 (1489 / 10)) ∧
    ("ValueError".data <:+: (fetch_stock_price "AAPL" (.raises "ValueError" "boom")).data ∧
      "boom".data <:+: (fetch_stock_price "AAPL" (.raises "ValueError" "boom")).data) := by
  refine ⟨?_, ?_⟩
  · have h := (C3_fetch_stock_price_amended "AAPL").1 [1489 / 10] (by decide)
    simpa using h
  · exact (C3_fetch_stock_price_amended "AAPL").2.2.1 "ValueError" "boom" (by decide)

/-- Helper: if some call in the batch is a "function" call whose name is
not registered, the `process_message` tool-call loop raises. -/
theorem handleLoop_error_of_unknown (avail : Registry) (calls : List ToolCall)
    (h : ∃ c ∈ calls, c.type = "function" ∧ List.lookup c.function.name avail = none) :
    ∃ e, handleToolCallsLoop avail calls = .error e := by
  induction calls with
  | nil => simp at h
  | cons c rest ih =>
      by_cases hty : (c.type == "function") = true
      · cases hlk : List.lookup c.function.name avail with
        | none =>
            exact ⟨"Requested function '" ++ c.function.name ++ "' is not available.",
              by simp only [handleToolCallsLoop, hty, if_true, hlk]⟩
        | some f =>
            obtain ⟨d, hd, hdty, hdlk⟩ := h
            rcases List.mem_cons.mp hd with hdc | hdr
            · subst hdc
              rw [hlk] at hdlk
              exact absurd hdlk (by simp)
            · obtain ⟨e, he⟩ := ih ⟨d, hdr, hdty, hdlk⟩
              exact ⟨e, by simp only [handleToolCallsLoop, hty, if_true, hlk, he]⟩
      · exact ⟨"Requested function '" ++ c.function.name ++ "' is not available.",
          by simp only [handleToolCallsLoop, hty, Bool.false_eq_true, if_false]⟩

/-- Helper: if some call in the batch is a "function" call whose name is
not registered, the manual cell's tool-call loop raises as well. -/
theorem handleManual_error_of_unknown (avail : Registry) (calls : List ToolCall)
    (h : ∃ c ∈ calls, c.type = "function" ∧ List.lookup c.function.name avail = none) :
    ∃ e, handleToolCallsManual avail calls = .error e := by
  induction calls with
  | nil => simp at h
  | cons c rest ih =>
      obtain ⟨d, hd, hdty, hdlk⟩ := h
      by_cases hty : (c.type == "function") = true
      · cases hlk : List.lookup c.function.name avail with
        | none =>
            exact ⟨"Function requested by the model does not exist",
              by simp only [handleToolCallsManual, hty, if_true, hlk]⟩
        | some f =>
            rcases List.mem_cons.mp hd with hdc | hdr
            · subst hdc
              rw [hlk] at hdlk
              exact absurd hdlk (by simp)
            · obtain ⟨e, he⟩ := ih ⟨d, hdr, hdty, hdlk⟩
              exact ⟨e, by simp only [handleToolCallsManual, hty, if_true, hlk, he]⟩
      · rcases List.mem_cons.mp hd with hdc | hdr
        · subst hdc
          exact absurd hdty (by simpa using hty)
        · obtain ⟨e, he⟩ := ih ⟨d, hdr, hdty, hdlk⟩
          exact ⟨e, by simp only [handleToolCallsManual, hty, Bool.false_eq_true, if_false, he]⟩

/-- Helper: when every call of the batch is a "function" call with a
registered name, both tool-call loops succeed, produce the same
response list, and key the i-th output by the i-th call's id. -/
theorem handle_ok_of_known (avail : Registry) (calls : List ToolCall)
    (h : ∀ c ∈ calls, c.type = "function" ∧
      (List.lookup c.function.name avail).isSome = true) :
    ∃ outs : List ToolOutput,
      handleToolCallsLoop avail calls = .ok outs ∧
      handleToolCallsManual avail calls = .ok outs ∧
      outs.map ToolOutput.tool_call_id = calls.map ToolCall.id := by
  induction calls with
  | nil => exact ⟨[], rfl, rfl, rfl⟩
  | cons c rest ih =>
      obtain ⟨hcty, hclk⟩ := h c (List.mem_cons_self c rest)
      obtain ⟨outs, h1, h2, hmap⟩ := ih fun d hd => h d (List.mem_cons_of_mem c hd)
      obtain ⟨f, hf⟩ := Option.isSome_iff_exists.mp hclk
      have hty : (c.type == "function") = true := by simp [hcty]
      refine ⟨{ tool_call_id := c.id, output := f c.function.arguments } :: outs, ?_, ?_, ?_⟩
      · simp only [handleToolCallsLoop, hty, if_true, hf, h1]
      · simp only [handleToolCallsManual, hty, if_true, hf, h2]
      · simp [hmap]

/-- C1: a `requires_action` batch containing a "function" call whose
name is absent from `available_functions` is fatal in both code paths:
the `process_message` loop raises (so its iteration ends in `raised`,
with no `submit_tool_outputs_to_run` among its effects) and the manual
cell raises before its submit call; no tool outputs are submitted for
the batch in either path. -/
theorem C1_unknown_function_fatal (env : Env) (gtid tid : String) (r : RunState)
    (hstatus : r.status = "requires_action")
    (hra : r.requiredActionType = "submit_tool_outputs")
    (hbad : ∃ c ∈ r.toolCalls, c.type = "function" ∧
      List.lookup c.function.name env.available_functions = none) :
    (∃ e, handleToolCallsLoop env.available_functions r.toolCalls = .error e) ∧
    (∃ e, handleToolCallsManual env.available_functions r.toolCalls = .error e) ∧
    (∃ e, submitBatchManual env.available_functions r = .errored e) ∧
    (∃ e, (loopStep env gtid tid r).2 = .raised e) ∧
    (∀ outs, Effect.submitToolOutputs outs ∉ (loopStep env gtid tid r).1) := by
  obtain ⟨e₁, he₁⟩ := handleLoop_error_of_unknown env.available_functions r.toolCalls hbad
  obtain ⟨e₂, he₂⟩ := handleManual_error_of_unknown env.available_functions r.toolCalls hbad
  have hstep : loopStep env gtid tid r = ([Effect.sleep, Effect.getRun], .raised e₁) := by
    simp only [loopStep, hstatus, hra, he₁]
    simp
  refine ⟨⟨e₁, he₁⟩, ⟨e₂, he₂⟩, ⟨e₂, ?_⟩, ⟨e₁, by rw [hstep]⟩, ?_⟩
  · simp only [submitBatchManual, hra, he₂]
    norm_num
  · intro outs
    rw [hstep]
    simp

/-- C1 witness: the theorem applied to the concrete environment `envC1`
whose single pending call requests the unregistered function
"fetch_bond_yield". -/
theorem C1_unknown_function_fatal_witness :
    (∃ e, handleToolCallsLoop envC1.available_functions (envC1.runStates 0).toolCalls =
      .error e) ∧
    (∃ e, handleToolCallsManual envC1.available_functions (envC1.runStates 0).toolCalls =
      .error e) ∧
    (∃ e, submitBatchManual envC1.available_functions (envC1.runStates 0) = .errored e) ∧
    (∃ e, (loopStep envC1 "T1" "T1" (envC1.runStates 0)).2 = .raised e) ∧
    (∀ outs, Effect.submitToolOutputs outs ∉ (loopStep envC1 "T1" "T1" (envC1.runStates 0)).1) :=
  C1_unknown_function_fatal envC1 "T1" "T1" (envC1.runStates 0) rfl rfl
    ⟨callUnknown, by decide, rfl, rfl⟩

/-- C2: a `requires_action` batch of N calls, each of type "function"
with a registered name, yields in both code paths exactly N
`(tool_call_id, output)` pairs — the i-th keyed by the i-th call's id —
and they are submitted as one `submit_tool_outputs_to_run` batch (the
manual cell submits them; the loop iteration's effect list holds exactly
one submission, after which polling resumes via `cont`). -/
theorem C2_batch_outputs_complete (env : Env) (gtid tid : String) (r : RunState)
    (hstatus : r.status = "requires_action")
    (hra : r.requiredActionType = "submit_tool_outputs")
    (hgood : ∀ c ∈ r.toolCalls, c.type = "function" ∧
      (List.lookup c.function.name env.available_functions).isSome = true) :
    ∃ outs : List ToolOutput,
      handleToolCallsLoop env.available_functions r.toolCalls = .ok outs ∧
      handleToolCallsManual env.available_functions r.toolCalls = .ok outs ∧
      outs.length = r.toolCalls.length ∧
      outs.map ToolOutput.tool_call_id = r.toolCalls.map ToolCall.id ∧
      submitBatchManual env.available_functions r = .submitted outs ∧
      loopStep env gtid tid r =
        ([Effect.sleep, Effect.getRun, Effect.submitToolOutputs outs], .cont) := by
  obtain ⟨outs, h1, h2, hmap⟩ :=
    handle_ok_of_known env.available_functions r.toolCalls hgood
  have hlen : outs.length = r.toolCalls.length := by
    have := congrArg List.length hmap
    simpa using this
  refine ⟨outs, h1, h2, hlen, hmap, ?_, ?_⟩
  · simp only [submitBatchManual, hra, h2]
    norm_num
  · simp only [loopStep, hstatus, hra, h1]
    simp

/-- C2 witness: the theorem applied to the concrete environment `envC2`
whose pending batch holds two registered "function" calls. -/
theorem C2_batch_outputs_complete_witness :
    ∃ outs : List ToolOutput,
      handleToolCallsLoop envC2.available_functions (envC2.runStates 0).toolCalls = .ok outs ∧
      handleToolCallsManual envC2.available_functions (envC2.runStates 0).toolCalls =
        .ok outs ∧
      outs.length = (envC2.runStates 0).toolCalls.length ∧
      outs.map ToolOutput.tool_call_id = (envC2.runStates 0).toolCalls.map ToolCall.id ∧
      submitBatchManual envC2.available_functions (envC2.runStates 0) = .submitted outs ∧
      loopStep envC2 "T1" "T1" (envC2.runStates 0) =
        ([Effect.sleep, Effect.getRun, Effect.submitToolOutputs outs], .cont) :=
  C2_batch_outputs_complete envC2 "T1" "T1" (envC2.runStates 0) rfl rfl (by decide)

/-- Helper: a "queued" or "in_progress" poll takes the final `else`
branch of the loop body: sleep, poll, sleep again, continue. -/
theorem loopStep_poll (env : Env) (gtid tid : String) (r : RunState)
    (h : r.status = "queued" ∨ r.status = "in_progress") :
    loopStep env gtid tid r = ([Effect.sleep, Effect.getRun, Effect.sleep], .cont) := by
  rcases h with h | h <;> simp [loopStep, h]

/-- Helper: the per-part scan of the dispatcher only ever adds image
effects, never a run poll. -/
theorem foldl_dispatch_no_getRun (ps : List ContentPart) (acc : Option String × List Effect)
    (h : Effect.getRun ∉ acc.2) :
    Effect.getRun ∉ (ps.foldl dispatchPartStep acc).2 := by
  induction ps generalizing acc with
  | nil => simpa using h
  | cons p rest ih =>
      rw [List.foldl_cons]
      apply ih
      cases p with
      | text v => simpa [dispatchPartStep] using h
      | imageFile fid => simpa [dispatchPartStep] using h
      | other s => simpa [dispatchPartStep] using h

/-- Helper: dispatching one message performs no run poll. -/
theorem dispatchMessage_no_getRun (m : Message) :
    Effect.getRun ∉ (dispatchMessage m).2 := by
  cases hm : m.content.isEmpty with
  | true => simp [dispatchMessage, hm]
  | false =>
      simp only [dispatchMessage, hm, Bool.false_eq_true, if_false]
      exact foldl_dispatch_no_getRun _ _ (by simp)

/-- Helper: dispatching the fetched message list performs no run poll. -/
theorem dispatchMessages_no_getRun (msgs : List Message) :
    Effect.getRun ∉ (dispatchMessages msgs).2 := by
  simp only [dispatchMessages]
  suffices h : ∀ acc : List String × List Effect, Effect.getRun ∉ acc.2 →
      Effect.getRun ∉ (msgs.foldl
        (fun acc m => (acc.1 ++ (dispatchMessage m).1, acc.2 ++ (dispatchMessage m).2)) acc).2 by
    exact h ([], []) (by simp)
  induction msgs with
  | nil => intro acc h; simpa using h
  | cons m rest ih =>
      intro acc h
      rw [List.foldl_cons]
      apply ih
      intro hmem
      rcases List.mem_append.mp hmem with h1 | h1
      · exact h h1
      · exact dispatchMessage_no_getRun m h1

/-- C4: a poll observing status "completed" fetches the processed
thread's full message list in ascending creation order, breaks the
loop with that list as the outcome, and never polls again: the result
is the same for every remaining fuel, the iteration's trace holds the
single poll, and the dispatcher contributes no further poll.  When the
run was started normally (no create error), `process_message` returns
this outcome. -/
theorem C4_completed_terminal (env : Env) (gtid tid : String) (fuel k : Nat)
    (hc : (env.runStates k).status = "completed") :
    runLoop env gtid tid (fuel + 1) k =
      (some (.completed (env.listMessagesAsc tid)
         (dispatchMessages (env.listMessagesAsc tid)).1),
       Effect.sleep :: Effect.getRun :: Effect.listMessages tid ::
         (dispatchMessages (env.listMessagesAsc tid)).2) ∧
    Effect.getRun ∉ (dispatchMessages (env.listMessagesAsc tid)).2 ∧
    (k = 0 → env.createMessageError = none → env.createRunError = none →
      (process_message env gtid tid (fuel + 1)).1 =
        some (.completed (env.listMessagesAsc tid)
          (dispatchMessages (env.listMessagesAsc tid)).1)) := by
  have hs : loopStep env gtid tid (env.runStates k) =
      (Effect.sleep :: Effect.getRun :: Effect.listMessages tid ::
         (dispatchMessages (env.listMessagesAsc tid)).2,
       .brk (.completed (env.listMessagesAsc tid)
         (dispatchMessages (env.listMessagesAsc tid)).1)) := by
    simp [loopStep, hc]
  have hrl : runLoop env gtid tid (fuel + 1) k =
      (some (.completed (env.listMessagesAsc tid)
         (dispatchMessages (env.listMessagesAsc tid)).1),
       Effect.sleep :: Effect.getRun :: Effect.listMessages tid ::
         (dispatchMessages (env.listMessagesAsc tid)).2) := by
    simp only [runLoop, hs]
  refine ⟨hrl, dispatchMessages_no_getRun _, ?_⟩
  intro hk hcm hcr
  subst hk
  simp only [process_message, hcm, hcr, hrl]

/-- C4 witness: the theorem applied to `envC4`, whose first poll
reports "completed". -/
theorem C4_completed_terminal_witness :
    runLoop envC4 "T1" "T1" 1 0 =
      (some (.completed (envC4.listMessagesAsc "T1")
         (dispatchMessages (envC4.listMessagesAsc "T1")).1),
       Effect.sleep :: Effect.getRun :: Effect.listMessages "T1" ::
         (dispatchMessages (envC4.listMessagesAsc "T1")).2) ∧
    Effect.getRun ∉ (dispatchMessages (envC4.listMessagesAsc "T1")).2 ∧
    (0 = 0 → envC4.createMessageError = none → envC4.createRunError = none →
      (process_message envC4 "T1" "T1" 1).1 =
        some (.completed (envC4.listMessagesAsc "T1")
          (dispatchMessages (envC4.listMessagesAsc "T1")).1)) :=
  C4_completed_terminal envC4 "T1" "T1" 0 0 rfl

/-- C8: a poll iteration observing "queued" or "in_progress" performs
only the status re-fetch and the sleeps — its effect trace holds no
message creation, no message listing, no tool submission — and the loop
continues. -/
theorem C8_poll_idempotent (env : Env) (gtid tid : String) (r : RunState)
    (h : r.status = "queued" ∨ r.status = "in_progress") :
    loopStep env gtid tid r = ([Effect.sleep, Effect.getRun, Effect.sleep], .cont) ∧
    ∀ e ∈ (loopStep env gtid tid r).1, e = Effect.sleep ∨ e = Effect.getRun := by
  have hs := loopStep_poll env gtid tid r h
  refine ⟨hs, ?_⟩
  rw [hs]
  intro e he
  simp only [List.mem_cons, List.not_mem_nil, or_false] at he
  tauto

/-- C8 witness: the theorem applied to the "queued" run state of
`envQueued`. -/
theorem C8_poll_idempotent_witness :
    loopStep envQueued "T1" "T1" (envQueued.runStates 0) =
      ([Effect.sleep, Effect.getRun, Effect.sleep], .cont) ∧
    ∀ e ∈ (loopStep envQueued "T1" "T1" (envQueued.runStates 0)).1,
      e = Effect.sleep ∨ e = Effect.getRun :=
  C8_poll_idempotent envQueued "T1" "T1" (envQueued.runStates 0) (Or.inl rfl)

/-- C9: the polling loop has no timeout or attempt bound: against a run
whose observed status is "queued" or "in_progress" at every poll, the
loop reaches no terminal outcome however much fuel is unrolled — the
source loop never terminates. -/
theorem C9_no_timeout_loops_forever (env : Env) (gtid tid : String)
    (h : ∀ k, (env.runStates k).status = "queued" ∨ (env.runStates k).status = "in_progress") :
    ∀ fuel k, (runLoop env gtid tid fuel k).1 = none := by
  intro fuel
  induction fuel with
  | zero => intro k; rfl
  | succ n ih =>
      intro k
      have hs := loopStep_poll env gtid tid (env.runStates k) (h k)
      simp only [runLoop, hs]
      exact ih (k + 1)

/-- C9 witness: the theorem applied to `envQueued` (always "queued")
with 5 units of fuel. -/
theorem C9_no_timeout_loops_forever_witness :
    (runLoop envQueued "T1" "T1" 5 0).1 = none :=
  C9_no_timeout_loops_forever envQueued "T1" "T1" (fun _ => Or.inl rfl) 5 0

/-- C10: the "failed" branch of `process_message` lists the messages of
the module-global thread (`thread.id`, here `gtid`), not of its
`thread_id` parameter `tid`: the loop breaks with the most recent
message of the global thread, and whenever `tid ≠ gtid` no listing of
`tid` appears in the trace. -/
theorem C10_failed_uses_global_thread (env : Env) (gtid tid : String) (fuel k : Nat)
    (a : String)
    (hf : (env.runStates k).status = "failed")
    (ha : failedAnswer (listMessagesDesc env gtid) = some a) :
    runLoop env gtid tid (fuel + 1) k =
      (some (.failed a), [Effect.sleep, Effect.getRun, Effect.listMessages gtid]) ∧
    (tid ≠ gtid → Effect.listMessages tid ∉ (runLoop env gtid tid (fuel + 1) k).2) := by
  have hs : loopStep env gtid tid (env.runStates k) =
      ([Effect.sleep, Effect.getRun, Effect.listMessages gtid], .brk (.failed a)) := by
    simp [loopStep, hf, ha]
  have hrl : runLoop env gtid tid (fuel + 1) k =
      (some (.failed a), [Effect.sleep, Effect.getRun, Effect.listMessages gtid]) := by
    simp only [runLoop, hs]
  refine ⟨hrl, ?_⟩
  intro hne
  rw [hrl]
  simp [hne]

/-- C10 witness: the theorem applied to `envC10` with global thread
"T1", processed thread "T2", whose run fails at the first poll. -/
theorem C10_failed_uses_global_thread_witness :
    runLoop envC10 "T1" "T2" 1 0 =
      (some (.failed "latest T1 note"),
       [Effect.sleep, Effect.getRun, Effect.listMessages "T1"]) ∧
    ("T2" ≠ "T1" → Effect.listMessages "T2" ∉ (runLoop envC10 "T1" "T2" 1 0).2) :=
  C10_failed_uses_global_thread envC10 "T1" "T2" 0 0 "latest T1 note" rfl (by decide)

/-- C5: evaluation at the failing input.  With global thread "T1" and
`process_message` polling thread "T2", a failed run reports the latest
message of the global thread ("global thread answer"), although the
processed thread's most recent message is different ("processed thread
answer") — contradicting the claim that the failure outcome carries the
processed thread's most recent message. -/
theorem C5_failed_branch_wrong_thread_eval :
    (runLoop envC5 "T1" "T2" 1 0).1 = some (.failed "global thread answer") ∧
    failedAnswer (listMessagesDesc envC5 "T2") = some "processed thread answer" := by
  constructor
  · decide
  · decide

/-- C6: evaluation at the failing input.  When `create_run` is rejected
(`envC6`), the except clause only prints the error, control falls into
the polling loop (the trailing `sleep` effect is the loop body's first
statement), and the iteration dies with `UnboundLocalError` at `run.id`
— no `get_run` poll ever happens, but the loop is entered, contradicting
the claim that the driver does not proceed into the polling loop. -/
theorem C6_start_failure_enters_loop_eval :
    process_message envC6 "T1" "T1" 7 =
      (some (.raised "UnboundLocalError"),
       [Effect.createMessage "T1", Effect.createRun "T1", Effect.sleep]) ∧
    Effect.getRun ∉ (process_message envC6 "T1" "T1" 7).2 := by
  constructor
  · decide
  · decide

/-- C7: counterexample.  A message with two text parts prints a single
line holding only the second part's value; the first text part's value
is dropped, contradicting the claim that no text part's value is
dropped. -/
theorem C7_multi_text_counterexample :
    (dispatchMessage msgC7).1 = ["User: second part value"] ∧
    ∀ l ∈ (dispatchMessage msgC7).1, ¬ ("first part value".data <:+: l.data) := by
  constructor
  · decide
  · decide

/-- C7 (amended): the dispatcher scans a message's content parts in the
order the service returned them, each text part overwriting the pending
`content` value, and prints one line per non-empty message carrying the
last value written: whenever the final content part is a text part with
value `v`, the single printed line is `f"{role.capitalize()}: {v}"`
(values of earlier text parts are overwritten and dropped). -/
theorem C7_last_text_surfaced (role : String) (ps : List ContentPart) (v : String) :
    (dispatchMessage { role := role, content := ps ++ [.text v] }).1 =
      [capitalize role ++ ": " ++ v] := by
  have hne : (ps ++ [ContentPart.text v]).isEmpty = false := by
    cases ps <;> rfl
  simp [dispatchMessage, hne, List.foldl_append, dispatchPartStep, pyNoneStr]
